import Mathlib

/-!
Verification of the reactive-stream core of the repository
(`src/libs-cma/src/rx/`): `Observer`, `TeardownLogic`, `Observable`, the
`map` operator, and the subscription engine (`subscribe`, `Unsubscribable`,
`spawn_driven_future`).

Shallow embedding conventions:
- callback effects (Rust closures invoked for their side effects) are
  embedded as state transformers over an explicit state type;
- the shared `Arc<AtomicBool>` liveness flag is embedded as the `Bool`
  component of the subscription state; two observers share the flag when
  their `active` lenses are the same function;
- the boxed future driven by the background worker is embedded as a finite
  sequence of `Pending` poll effects followed by one `Ready` poll;
- concurrency between the worker that invokes callbacks and the disposer
  that calls `unsubscribe` is embedded as an interleaving of actions fed to
  a step function.
-/

set_option autoImplicit false

namespace RxSpec

/-- A call performed on an `Observer`: one of the three user-visible
callback events `next` / `error` / `complete` of
`src/libs-cma/src/rx/observer.rs`. -/
inductive ObserverCall (V E : Type) where
  | next (v : V)
  | error (e : E)
  | complete
deriving DecidableEq, Repr

/-- Embedding of `Observer<TValue, TError>` (observer.rs): three callbacks,
each a state transformer over the subscription state `σ`, plus the shared
liveness flag `active: Arc<AtomicBool>`, embedded as the lens that reads the
flag from the state. Two observers share the same flag (same `Arc`) exactly
when their `active` lenses are equal, and share a callback when the
corresponding fields are equal (an `Arc::clone` copies the pointer, so the
clone is the same function value). -/
structure Observer (V E σ : Type) where
  next : V → σ → σ
  error : E → σ → σ
  complete : σ → σ
  active : σ → Bool

/-- Embedding of `impl Clone for Observer` (observer.rs): every field is an
`Arc::clone`, so the clone holds the same callbacks and the same flag. -/
def Observer.clone {V E σ : Type} (o : Observer V E σ) : Observer V E σ :=
  { next := o.next
    error := o.error
    complete := o.complete
    active := o.active }

/-- Embedding of `SyncTeardownFn<TValue, TError>` (teardown.rs):
`Fn(&Observer<V,E>) -> Result<(),E>`.  The function receives the observer,
performs its emissions as effects on the state, and returns the final state
together with the `Result`. -/
def SyncFn (V E σ : Type) : Type :=
  Observer V E σ → σ → σ × Except E Unit

/-- Embedding of the boxed future returned by an async teardown
(`AsyncTeardownFuture<TError>`, teardown.rs), restricted to computations
that eventually resolve (which is what the driver loop of
`spawn_driven_future` presupposes): a finite list of effects, one per poll
that returns `Poll::Pending`, followed by the effect and result of the poll
that returns `Poll::Ready`. -/
structure MFuture (E σ : Type) where
  pendingSteps : List (σ → σ)
  final : σ → σ × Except E Unit

/-- Embedding of `AsyncTeardownFn<TValue, TError>` (teardown.rs):
`Fn(Observer<V,E>) -> AsyncTeardownFuture<E>`; takes the observer by value
and returns the deferred computation. -/
def AsyncFn (V E σ : Type) : Type :=
  Observer V E σ → MFuture E σ

/-- Embedding of `TeardownLogic<TValue, TError>` (teardown.rs): the tagged
variant with exactly the two cases `Sync` and `Async`. -/
inductive TeardownLogic (V E σ : Type) where
  | sync (f : SyncFn V E σ)
  | async (f : AsyncFn V E σ)

/-- Discriminant of the `TeardownLogic` variant (`Sync` versus `Async`). -/
def TeardownLogic.isSync {V E σ : Type} : TeardownLogic V E σ → Bool
  | .sync _ => true
  | .async _ => false

/-- Embedding of `TeardownLogic::from_sync` (teardown.rs): wraps the
function in the `Sync` variant (the `Arc::new` is identity in the model). -/
def TeardownLogic.from_sync {V E σ : Type} (f : SyncFn V E σ) :
    TeardownLogic V E σ :=
  TeardownLogic.sync f

/-- Embedding of `TeardownLogic::from_async` (teardown.rs): wraps the
function in the `Async` variant (the `Box::pin` wrapper is identity in the
model, since `MFuture` is already the boxed-future embedding). -/
def TeardownLogic.from_async {V E σ : Type} (f : AsyncFn V E σ) :
    TeardownLogic V E σ :=
  TeardownLogic.async f

/-- Embedding of `Observable<TValue, TError>` (observable.rs): a wrapper
around exactly one `TeardownLogic`. -/
structure Observable (V E σ : Type) where
  teardown : TeardownLogic V E σ

/-- Embedding of `Observable::new` (observable.rs, lines 190-197): stores
`TeardownLogic::from_sync(f)`; the body contains no call of `f` and no
callback invocation. -/
def Observable.new {V E σ : Type} (f : SyncFn V E σ) : Observable V E σ :=
  { teardown := TeardownLogic.from_sync f }

/-- Embedding of `Observable::with_async_teardown` (observable.rs, lines
225-233): stores `TeardownLogic::from_async(f)`; the body contains no call
of `f` and no callback invocation. -/
def Observable.with_async_teardown {V E σ : Type} (f : AsyncFn V E σ) :
    Observable V E σ :=
  { teardown := TeardownLogic.from_async f }

/-- Embedding of `create_mapping_observer` (operators/map.rs, lines 92-116),
with the mapper as a pure function (the specified usage: `map` with pure
`f`): `next` applies the mapper and forwards the mapped value to the
downstream `next`; `error`, `complete` and `active` are `Arc::clone`s of the
downstream fields, hence the same values (shared, not copied). -/
def create_mapping_observer {V U E σ : Type}
    (observer : Observer U E σ) (mapper : V → U) : Observer V E σ :=
  { next := fun value => observer.next (mapper value)
    error := observer.error
    complete := observer.complete
    active := observer.active }

/-- Embedding of `create_mapping_observer_owned` (operators/map.rs, lines
120-144): identical body to `create_mapping_observer`, taking the observer
by value. -/
def create_mapping_observer_owned {V U E σ : Type}
    (observer : Observer U E σ) (mapper : V → U) : Observer V E σ :=
  { next := fun value => observer.next (mapper value)
    error := observer.error
    complete := observer.complete
    active := observer.active }

/-- Embedding of `Observable::map` (operators/map.rs, lines 50-87): matches
on the source `TeardownLogic` and rebuilds the same variant with a closure
that, when later invoked (at subscribe time), constructs the intermediate
mapping observer and invokes the source teardown with it.  The body of
`map` itself invokes neither the mapper nor the source teardown. -/
def Observable.map {V U E σ : Type} (o : Observable V E σ) (mapper : V → U) :
    Observable U E σ :=
  match o.teardown with
  | .sync source_fn =>
      { teardown := TeardownLogic.sync
          (fun observer => source_fn (create_mapping_observer observer mapper)) }
  | .async source_fn =>
      { teardown := TeardownLogic.async
          (fun observer => source_fn (create_mapping_observer_owned observer mapper)) }

/-- The wrapped observer built inside `subscribe` (observable.rs, lines
276-314 for the `Sync` branch and 326-364 for the `Async` branch, the two
branches build it identically): the subscription state is the pair of the
fresh liveness flag and the user state `τ`, and each wrapped callback first
loads the flag and is a no-op when it is `false`, otherwise invokes the
user callback. -/
def mkWrappedObserver {V E τ : Type} (n : V → τ → τ) (er : E → τ → τ)
    (c : τ → τ) : Observer V E (Bool × τ) :=
  { next := fun v s => if s.1 then (s.1, n v s.2) else s
    error := fun e s => if s.1 then (s.1, er e s.2) else s
    complete := fun s => if s.1 then (s.1, c s.2) else s
    active := fun s => s.1 }

/-- Canonical recording `next` callback: appends the event to a trace. -/
def recNext {V E : Type} (v : V) (tr : List (ObserverCall V E)) :
    List (ObserverCall V E) :=
  tr ++ [ObserverCall.next v]

/-- Canonical recording `error` callback: appends the event to a trace. -/
def recError {V E : Type} (e : E) (tr : List (ObserverCall V E)) :
    List (ObserverCall V E) :=
  tr ++ [ObserverCall.error e]

/-- Canonical recording `complete` callback: appends the event to a trace. -/
def recComplete {V E : Type} (tr : List (ObserverCall V E)) :
    List (ObserverCall V E) :=
  tr ++ [ObserverCall.complete]

/-- The wrapped observer of a subscriber whose three callbacks record the
events they observe. -/
def recObserver (V E : Type) :
    Observer V E (Bool × List (ObserverCall V E)) :=
  mkWrappedObserver recNext recError recComplete

/-- One action in the interleaving of the worker (which invokes the wrapped
callbacks of the recording subscriber) and the disposer (which calls
`Unsubscribable::unsubscribe`). -/
inductive RxAction (V E : Type) where
  | callNext (v : V)
  | callError (e : E)
  | callComplete
  | unsubscribe
deriving DecidableEq, Repr

/-- Effect of one action on the shared state (flag value, observed trace).
The three callback actions run the wrapped callbacks of `recObserver`;
`unsubscribe` is `self.active.store(false, Ordering::SeqCst)`
(observable.rs, lines 72-74). -/
def stepRx {V E : Type} (s : Bool × List (ObserverCall V E)) :
    RxAction V E → Bool × List (ObserverCall V E)
  | .callNext v => (recObserver V E).next v s
  | .callError e => (recObserver V E).error e s
  | .callComplete => (recObserver V E).complete s
  | .unsubscribe => (false, s.2)

/-- Run a sequence of interleaved actions from a state. -/
def runRx {V E : Type} (s : Bool × List (ObserverCall V E))
    (acts : List (RxAction V E)) : Bool × List (ObserverCall V E) :=
  acts.foldl stepRx s

lemma runRx_append {V E : Type} (s : Bool × List (ObserverCall V E))
    (l1 l2 : List (RxAction V E)) :
    runRx s (l1 ++ l2) = runRx (runRx s l1) l2 := by
  simp [runRx, List.foldl_append]

lemma runRx_inactive {V E : Type} (acts : List (RxAction V E))
    (tr : List (ObserverCall V E)) :
    runRx (false, tr) acts = (false, tr) := by
  induction acts with
  | nil => rfl
  | cons a acts ih =>
      have h : stepRx (false, tr) a = (false, tr) := by
        cases a <;> simp [stepRx, recObserver, mkWrappedObserver]
      calc runRx (false, tr) (a :: acts)
          = runRx (stepRx (false, tr) a) acts := rfl
        _ = (false, tr) := by rw [h]; exact ih

/-- Claim C1: once `unsubscribe()` has stored `false` into the shared
liveness flag, no subsequent invocation of the wrapped `next` / `error` /
`complete` callbacks has any effect, however the worker keeps interleaving
callback invocations: the run is unchanged by everything after the
`unsubscribe` action; moreover each wrapped callback loads the flag first
and is a no-op when it is `false`. -/
theorem unsubscribe_stops_callbacks {V E : Type}
    (pre post : List (RxAction V E)) :
    runRx (true, []) (pre ++ RxAction.unsubscribe :: post) =
      runRx (true, []) (pre ++ [RxAction.unsubscribe]) ∧
    (∀ (τ : Type) (n : V → τ → τ) (er : E → τ → τ) (c : τ → τ)
        (v : V) (e : E) (t : τ),
      (mkWrappedObserver n er c).next v (false, t) = (false, t) ∧
      (mkWrappedObserver n er c).error e (false, t) = (false, t) ∧
      (mkWrappedObserver n er c).complete (false, t) = (false, t)) := by
  constructor
  · have h1 : pre ++ RxAction.unsubscribe :: post
        = (pre ++ [RxAction.unsubscribe]) ++ post := by simp
    have h2 : runRx (true, ([] : List (ObserverCall V E)))
          (pre ++ [RxAction.unsubscribe])
        = (false, (runRx (true, []) pre).2) := by
      rw [runRx_append]; rfl
    rw [h1, runRx_append, h2, runRx_inactive]
  · intro τ n er c v e t
    refine ⟨?_, ?_, ?_⟩ <;> simp [mkWrappedObserver]

/-- A background worker thread: its identifier and the value its
`JoinHandle::join()` returns (`thread::Result<()>`, embedded as
`Except Unit Unit`; `Except.error ()` stands for a panicked thread). -/
structure Worker where
  wid : Nat
  res : Except Unit Unit
deriving Repr

/-- Embedding of `Unsubscribable` (observable.rs, lines 31-36): the optional
`JoinHandle` of the background thread, and the value of the shared `active`
flag reachable from this handle. -/
structure Unsubscribable where
  handle : Option Worker
  active : Bool
deriving Repr

/-- Embedding of `Unsubscribable::ready` (observable.rs, lines 44-49): no
background handle, and a fresh flag initialized to `false`. -/
def Unsubscribable.ready : Unsubscribable :=
  { handle := none, active := false }

/-- Embedding of `Unsubscribable::background` (observable.rs, lines 61-66). -/
def Unsubscribable.background (h : Worker) (a : Bool) : Unsubscribable :=
  { handle := some h, active := a }

/-- Result of running one disposal operation of `Unsubscribable`: the new
handle state, the workers joined on the calling thread (which therefore
block it), the handles moved into freshly spawned joiner threads, and the
returned `thread::Result`. -/
structure DisposalOutcome where
  state : Unsubscribable
  joinedHere : List Worker
  joinerThreads : List Worker
  res : Except Unit Unit
deriving Repr

/-- Embedding of `Unsubscribable::unsubscribe` (observable.rs, lines 72-74):
stores `false` into the shared flag; touches nothing else. -/
def Unsubscribable.unsubscribeOp (u : Unsubscribable) : DisposalOutcome :=
  { state := { handle := u.handle, active := false }
    joinedHere := []
    joinerThreads := []
    res := Except.ok () }

/-- Embedding of `Unsubscribable::join` (observable.rs, lines 93-99): takes
the handle if present and joins it on the calling thread, returning the
join result; otherwise returns `Ok(())` without blocking.  The flag is not
touched. -/
def Unsubscribable.joinOp (u : Unsubscribable) : DisposalOutcome :=
  match u.handle with
  | some h =>
      { state := { handle := none, active := u.active }
        joinedHere := [h]
        joinerThreads := []
        res := h.res }
  | none =>
      { state := u
        joinedHere := []
        joinerThreads := []
        res := Except.ok () }

/-- Embedding of `Unsubscribable::detach` (observable.rs, lines 105-111):
takes the handle if present and moves it into a freshly spawned thread that
joins it, so the calling thread never blocks.  The flag is not touched. -/
def Unsubscribable.detachOp (u : Unsubscribable) : DisposalOutcome :=
  match u.handle with
  | some h =>
      { state := { handle := none, active := u.active }
        joinedHere := []
        joinerThreads := [h]
        res := Except.ok () }
  | none =>
      { state := u
        joinedHere := []
        joinerThreads := []
        res := Except.ok () }

/-- Embedding of `impl Drop for Unsubscribable` (observable.rs, lines
114-125): stores `false` into the shared flag, then takes the handle if
present and moves it into a freshly spawned joiner thread (the joining
never happens on the dropping thread). -/
def Unsubscribable.dropOp (u : Unsubscribable) : DisposalOutcome :=
  match u.handle with
  | some h =>
      { state := { handle := none, active := false }
        joinedHere := []
        joinerThreads := [h]
        res := Except.ok () }
  | none =>
      { state := { handle := none, active := false }
        joinedHere := []
        joinerThreads := []
        res := Except.ok () }

/-- Sequencing of two disposal operations on the same handle: the effects
of both accumulate, and the result is that of the second. -/
def DisposalOutcome.andThen (o : DisposalOutcome)
    (k : Unsubscribable → DisposalOutcome) : DisposalOutcome :=
  { state := (k o.state).state
    joinedHere := o.joinedHere ++ (k o.state).joinedHere
    joinerThreads := o.joinerThreads ++ (k o.state).joinerThreads
    res := (k o.state).res }

/-- Embedding of the `Sync` branch of `Subscribable::subscribe`
(observable.rs, lines 276-323): build the wrapped observer over a fresh
flag initialized `true`, invoke the teardown synchronously with it, forward
a returned error to the wrapped `error` callback, and return
`Unsubscribable::ready()` in both arms. -/
def subscribeSyncBranch {V E τ : Type} (f : SyncFn V E (Bool × τ))
    (n : V → τ → τ) (er : E → τ → τ) (c : τ → τ) (t0 : τ) :
    (Bool × τ) × Unsubscribable :=
  let callbacks := mkWrappedObserver n er c
  match f callbacks (true, t0) with
  | (s, .ok _) => (s, Unsubscribable.ready)
  | (s, .error e) => (callbacks.error e s, Unsubscribable.ready)

/-- A producer that follows the `Observable::new` contract (spec section
4.1): it performs a sequence of observer calls and then returns a
`Result`.  This is the data of one concrete `SyncTeardownFn`. -/
structure SyncProducer (V E : Type) where
  calls : List (ObserverCall V E)
  result : Except E Unit
deriving Repr

/-- Perform one recorded observer call on the given observer. -/
def applyCall {V E σ : Type} (obs : Observer V E σ) :
    ObserverCall V E → σ → σ
  | .next v => obs.next v
  | .error e => obs.error e
  | .complete => obs.complete

/-- The `SyncTeardownFn` denoted by a `SyncProducer`: performs its calls on
the observer it is handed, in order, then returns its result. -/
def SyncProducer.run {V E σ : Type} (p : SyncProducer V E) : SyncFn V E σ :=
  fun obs s => (p.calls.foldl (fun st c => applyCall obs c st) s, p.result)

lemma recObserver_deliver {V E : Type} (calls : List (ObserverCall V E))
    (tr : List (ObserverCall V E)) :
    calls.foldl (fun st c => applyCall (recObserver V E) c st) (true, tr)
      = (true, tr ++ calls) := by
  induction calls generalizing tr with
  | nil => simp
  | cons c cs ih =>
      have h : applyCall (recObserver V E) c (true, tr) = (true, tr ++ [c]) := by
        cases c <;>
          simp [applyCall, recObserver, mkWrappedObserver, recNext, recError,
            recComplete]
      rw [List.foldl_cons, h, ih]
      simp

/-- Evaluation of the Sync subscribe branch on a contract-following
producer: every producer call is delivered (the fresh flag stays `true`
throughout), a terminal `Err` is forwarded to the wrapped `error` callback,
and the returned handle is `Unsubscribable::ready()` in both arms. -/
lemma subscribeSyncBranch_run_eq {V E : Type} (calls : List (ObserverCall V E))
    (res : Except E Unit) :
    subscribeSyncBranch (SyncProducer.run { calls := calls, result := res })
        recNext recError recComplete []
      = ((true, calls ++
            (match res with
             | .ok _ => []
             | .error e => [ObserverCall.error e])),
         Unsubscribable.ready) := by
  have hd : calls.foldl
      (fun st c => applyCall (mkWrappedObserver recNext recError recComplete) c st)
      ((true : Bool), ([] : List (ObserverCall V E)))
      = (true, calls) := by
    simpa [recObserver] using recObserver_deliver (V := V) (E := E) calls []
  cases res with
  | ok u =>
      simp only [subscribeSyncBranch, SyncProducer.run]
      rw [hd]
      simp
  | error e =>
      simp only [subscribeSyncBranch, SyncProducer.run]
      rw [hd]
      simp [mkWrappedObserver, recError]

/-- Claim C2: for every immediate (Sync) producer, `subscribe` runs the
teardown synchronously with the freshly built wrapped observer, so that by
the time `subscribe` returns the final state already contains every
emission of the producer, and the returned handle is `Unsubscribable::ready`
(no worker handle). -/
theorem sync_subscribe_ready {V E : Type} (p : SyncProducer V E) :
    (subscribeSyncBranch p.run recNext recError recComplete []).2
        = Unsubscribable.ready ∧
    (subscribeSyncBranch p.run recNext recError recComplete []).2.handle
        = none ∧
    (subscribeSyncBranch p.run recNext recError recComplete []).1
        = (true, p.calls ++
            (match p.result with
             | .ok _ => []
             | .error e => [ObserverCall.error e])) := by
  obtain ⟨calls, res⟩ := p
  rw [subscribeSyncBranch_run_eq]
  exact ⟨rfl, rfl, rfl⟩

/-- Claim C7: for an immediate stream whose teardown returns `Err(e)`,
`subscribe` invokes the wrapped `error` callback with `e` — delivered,
since the liveness flag is still `true` at that point — and still returns
the `Ready` handle; when the teardown returns `Ok(())`, `subscribe` itself
never invokes the `error` callback (the trace contains exactly the
producer own calls). -/
theorem sync_error_forwarding {V E : Type} :
    (∀ (calls : List (ObserverCall V E)) (e : E),
      subscribeSyncBranch
          (SyncProducer.run { calls := calls, result := Except.error e })
          recNext recError recComplete []
        = ((true, calls ++ [ObserverCall.error e]), Unsubscribable.ready)) ∧
    (∀ calls : List (ObserverCall V E),
      subscribeSyncBranch
          (SyncProducer.run { calls := calls, result := Except.ok () })
          recNext recError recComplete []
        = ((true, calls), Unsubscribable.ready)) := by
  constructor
  · intro calls e
    simpa using subscribeSyncBranch_run_eq calls (Except.error e)
  · intro calls
    simpa using subscribeSyncBranch_run_eq calls (Except.ok ())

/-- Fold of the `Pending` polls of a future: the effect of driving the
computation up to (but not including) the poll that returns `Ready`
(observable.rs, lines 434-444: each `Poll::Pending` arm only yields the
processor and retries). -/
def runPending {E σ : Type} (fut : MFuture E σ) (s : σ) : σ :=
  fut.pendingSteps.foldl (fun st g => g st) s

/-- Embedding of `spawn_driven_future` (observable.rs, lines 421-447): the
worker polls the future in a loop; on `Ready(Ok(()))` it breaks, on
`Ready(Err(e))` it forwards `e` to its clone of the wrapped `error`
callback exactly once and breaks; there is no retry after a `Ready` poll. -/
def spawn_driven_future {V E σ : Type} (fut : MFuture E σ)
    (cb_for_err : Observer V E σ) (s : σ) : σ :=
  match fut.final (runPending fut s) with
  | (s2, .ok _) => s2
  | (s2, .error e) => cb_for_err.error e s2

lemma foldl_id_of_mem {σ : Type} (L : List (σ → σ))
    (h : ∀ g ∈ L, ∀ s : σ, g s = s) (s : σ) :
    L.foldl (fun st g => g st) s = s := by
  induction L generalizing s with
  | nil => rfl
  | cons g L ih =>
      rw [List.foldl_cons, h g (by simp) s]
      exact ih (fun g2 hg2 => h g2 (by simp [hg2])) s

/-- Claim C6: for a deferred stream whose driven computation resolves to
`Err(e)` — the producer returns the error rather than calling its
callbacks, so its polls have no effect on the subscription state — the
worker forwards `e` to its clone of the wrapped `error` callback exactly
once (the final trace gains exactly the delivered `error e`, the flag still
being `true`), the `complete` callback is invoked zero times (the result
does not depend on `c` at all), and the worker exits its loop without any
retry after the resolving poll. -/
theorem async_error_terminal {V E τ : Type} (fut : MFuture E (Bool × τ))
    (n : V → τ → τ) (er : E → τ → τ) (c : τ → τ) (e : E) (t0 : τ)
    (hpend : ∀ g ∈ fut.pendingSteps, ∀ s : Bool × τ, g s = s)
    (hfin : ∀ s : Bool × τ, fut.final s = (s, Except.error e)) :
    spawn_driven_future fut ((mkWrappedObserver n er c).clone) (true, t0)
      = (true, er e t0) := by
  have hrun : runPending fut ((true : Bool), t0) = (true, t0) :=
    foldl_id_of_mem fut.pendingSteps hpend (true, t0)
  rw [spawn_driven_future, hrun, hfin]
  simp [Observer.clone, mkWrappedObserver]

/-- Witness for `async_error_terminal`: a concrete deferred computation
that is pending once and then resolves to `Err 7`. -/
theorem async_error_terminal_witness :
    spawn_driven_future
        (MFuture.mk [fun s => s] (fun s => (s, Except.error 7)))
        ((mkWrappedObserver (fun (v : Nat) t => v :: t) (fun e t => e :: t)
            (fun t => 0 :: t)).clone)
        (true, ([] : List Nat))
      = (true, [7]) :=
  async_error_terminal
    (MFuture.mk [fun s => s] (fun s => (s, Except.error 7)))
    (fun v t => v :: t) (fun e t => e :: t) (fun t => 0 :: t) 7 []
    (by
      intro g hg s
      rw [List.mem_singleton] at hg
      rw [hg])
    (fun s => rfl)

/-- Observational behaviour of one subscription, with the worker of a
deferred stream run to completion: the `Sync` branch of `subscribe`
followed by nothing, or the `Async` branch (observable.rs, lines 324-376)
followed by the worker loop of `spawn_driven_future`, which holds a second
clone of the wrapped observer for error propagation. -/
def subscribeAndJoin {V E τ : Type} (o : Observable V E (Bool × τ))
    (n : V → τ → τ) (er : E → τ → τ) (c : τ → τ) (t0 : τ) : Bool × τ :=
  match o.teardown with
  | .sync f =>
      let callbacks := mkWrappedObserver n er c
      match f callbacks (true, t0) with
      | (s, .ok _) => s
      | (s, .error e) => callbacks.error e s
  | .async f =>
      let cb_for_fut := mkWrappedObserver n er c
      spawn_driven_future (f cb_for_fut) cb_for_fut.clone (true, t0)

/-- Claim C4: `o.map(f).map(g)` is the same observable as
`o.map(|x| g(f(x)))` in the model, and in particular both deliver the same
sequence of `next` values, errors and completions to any subscriber. -/
theorem map_fusion {V U W E τ : Type} (o : Observable V E (Bool × τ))
    (f : V → U) (g : U → W) :
    (o.map f).map g = o.map (fun x => g (f x)) ∧
    ∀ (n : W → τ → τ) (er : E → τ → τ) (c : τ → τ) (t0 : τ),
      subscribeAndJoin ((o.map f).map g) n er c t0
        = subscribeAndJoin (o.map (fun x => g (f x))) n er c t0 := by
  have h : (o.map f).map g = o.map (fun x => g (f x)) := by
    obtain ⟨td⟩ := o
    cases td <;> rfl
  exact ⟨h, fun n er c t0 => by rw [h]⟩

/-- Claim C5: `map` preserves the teardown variant (a `Sync` source yields
a `Sync` result, an `Async` source an `Async` result), and the intermediate
observer built at subscribe time shares — does not copy — the downstream
`error` callback, `complete` callback and liveness flag, while its `next`
applies the mapper and forwards the mapped value to the downstream `next`
(for both the by-reference and the by-value constructor). -/
theorem map_preserves_variant_and_sharing {V U E σ : Type}
    (o : Observable V E σ) (m : V → U) (obs : Observer U E σ) :
    (o.map m).teardown.isSync = o.teardown.isSync ∧
    (create_mapping_observer obs m).error = obs.error ∧
    (create_mapping_observer obs m).complete = obs.complete ∧
    (create_mapping_observer obs m).active = obs.active ∧
    (∀ (v : V) (s : σ),
      (create_mapping_observer obs m).next v s = obs.next (m v) s) ∧
    (create_mapping_observer_owned obs m).error = obs.error ∧
    (create_mapping_observer_owned obs m).complete = obs.complete ∧
    (create_mapping_observer_owned obs m).active = obs.active ∧
    (∀ (v : V) (s : σ),
      (create_mapping_observer_owned obs m).next v s = obs.next (m v) s) := by
  refine ⟨?_, rfl, rfl, rfl, fun v s => rfl, rfl, rfl, rfl, fun v s => rfl⟩
  obtain ⟨td⟩ := o
  cases td <;> rfl

/-- Emission-instrumented `Observable::new`: pairs the constructed value
with the trace of observer callbacks invoked while constructing it.  The
Rust body (observable.rs, lines 190-197) only builds
`TeardownLogic::from_sync(f)`; it contains no call of `f` and no callback
invocation, so the construction trace is empty. -/
def newTraced {V E σ : Type} (f : SyncFn V E σ) :
    Observable V E σ × List (ObserverCall V E) :=
  (Observable.new f, [])

/-- Emission-instrumented `Observable::with_async_teardown` (observable.rs,
lines 225-233): the body only builds `TeardownLogic::from_async(f)`; no
call of `f`, no callback invocation, no poll of any future. -/
def withAsyncTeardownTraced {V E σ : Type} (f : AsyncFn V E σ) :
    Observable V E σ × List (ObserverCall V E) :=
  (Observable.with_async_teardown f, [])

/-- Emission-instrumented `Observable::map` (operators/map.rs, lines
50-87): the body matches on the variant and builds a closure; it invokes
neither the mapper nor the source teardown, so the construction trace is
empty. -/
def mapTraced {V U E σ : Type} (o : Observable V E σ) (m : V → U) :
    Observable U E σ × List (ObserverCall U E) :=
  (o.map m, [])

/-- Claim C3: constructing an observable through `Observable::new`,
`Observable::with_async_teardown` or `.map` never invokes the producer, the
mapper or the source teardown: the construction trace of each is empty, and
the constructed value only wraps the given function inside a
`TeardownLogic` value (for `map`, a closure that defers both the mapper and
the source teardown to subscribe time). -/
theorem construction_is_lazy {V U E σ : Type} (f : SyncFn V E σ)
    (g : AsyncFn V E σ) (o : Observable V E σ) (m : V → U)
    (sf : SyncFn V E σ) (af : AsyncFn V E σ) :
    (newTraced f).2 = [] ∧
    (newTraced f).1.teardown = TeardownLogic.sync f ∧
    (withAsyncTeardownTraced g).2 = [] ∧
    (withAsyncTeardownTraced g).1.teardown = TeardownLogic.async g ∧
    (mapTraced o m).2 = [] ∧
    ((Observable.mk (TeardownLogic.sync sf)).map m).teardown
        = TeardownLogic.sync
            (fun obs => sf (create_mapping_observer obs m)) ∧
    ((Observable.mk (TeardownLogic.async af)).map m).teardown
        = TeardownLogic.async
            (fun obs => af (create_mapping_observer_owned obs m)) :=
  ⟨rfl, rfl, rfl, rfl, rfl, rfl, rfl⟩

/-- Claim C8: discarding a subscription handle without calling any disposal
operation behaves exactly as `unsubscribe()` followed by `detach()`: the
`Drop` implementation stores `false` into the shared liveness flag and
moves the worker handle (when present) into a freshly spawned joiner
thread, performing no blocking join on the dropping thread; and since the
flag is `false`, every subsequent wrapped-callback invocation leaves the
observed trace unchanged. -/
theorem drop_is_unsubscribe_then_detach (u : Unsubscribable) :
    u.dropOp = (u.unsubscribeOp).andThen Unsubscribable.detachOp ∧
    u.dropOp.joinedHere = [] ∧
    u.dropOp.state.active = false ∧
    (∀ h : Worker,
      (Unsubscribable.background h true).dropOp.joinerThreads = [h]) ∧
    (∀ (V E : Type) (acts : List (RxAction V E))
        (tr : List (ObserverCall V E)),
      runRx (false, tr) acts = (false, tr)) := by
  refine ⟨?_, ?_, ?_, fun h => rfl, fun V E acts tr => runRx_inactive acts tr⟩
  · obtain ⟨h, a⟩ := u
    cases h <;> rfl
  · obtain ⟨h, a⟩ := u
    cases h <;> rfl
  · obtain ⟨h, a⟩ := u
    cases h <;> rfl

/-- Claim C9: `join()` never writes the liveness flag — the resulting state
keeps the flag value unchanged and only the worker handle is taken — and
on a handle with no worker (`Ready`, or already joined or detached) it
returns `Ok(())` immediately, blocking on no worker at all. -/
theorem join_preserves_liveness (u : Unsubscribable) :
    (u.joinOp).state = { handle := none, active := u.active } ∧
    (u.joinOp).joinerThreads = [] ∧
    (∀ a : Bool,
      (Unsubscribable.mk none a).joinOp
        = { state := { handle := none, active := a }
            joinedHere := []
            joinerThreads := []
            res := Except.ok () }) := by
  refine ⟨?_, ?_, fun a => rfl⟩
  · obtain ⟨h, a⟩ := u
    cases h <;> rfl
  · obtain ⟨h, a⟩ := u
    cases h <;> rfl

/-- State-instrumented embedding of `create_mapping_observer` /
`create_mapping_observer_owned` (operators/map.rs, lines 107-115 and
135-143), with the mapper modelled as a Rust `Fn` closure that may carry
captured interior-mutable state, i.e. an effect on the subscriber state
`τ`: `next` runs `let mapped = mapper(value);` first — with no liveness
check — and then forwards the mapped value to the downstream `next`;
`error`, `complete` and `active` are shared unchanged. -/
def create_mapping_observer_instr {V U E τ : Type}
    (observer : Observer U E (Bool × τ)) (mapper : V → τ → τ × U) :
    Observer V E (Bool × τ) :=
  { next := fun value s =>
      observer.next (mapper value s.2).2 (s.1, (mapper value s.2).1)
    error := observer.error
    complete := observer.complete
    active := observer.active }

/-- Claim C10: the mapping observer applies the mapper unconditionally —
its `next` does not consult the liveness flag before running the mapper —
so after `unsubscribe()` the mapper still runs on every value the producer
keeps emitting, and only the delivery to the user `next` callback is
suppressed, by the downstream liveness-checking wrapper: with the flag
`false`, the resulting state carries the mapper effect but is independent
of the user callbacks. -/
theorem mapper_runs_after_unsubscribe {V U E τ : Type}
    (n : U → τ → τ) (er : E → τ → τ) (c : τ → τ)
    (m : V → τ → τ × U) (v : V) (t : τ) (vs : List V) :
    ((create_mapping_observer_instr (mkWrappedObserver n er c) m).next v
        (false, t)
      = (false, (m v t).1)) ∧
    (vs.foldl
        (fun s w =>
          (create_mapping_observer_instr (mkWrappedObserver n er c) m).next w s)
        (false, t)
      = (false, vs.foldl (fun t2 w => (m w t2).1) t)) ∧
    (∀ (s : Bool × τ) (obs : Observer U E (Bool × τ)),
      (create_mapping_observer_instr obs m).next v s
        = obs.next (m v s.2).2 (s.1, (m v s.2).1)) := by
  refine ⟨?_, ?_, fun s obs => rfl⟩
  · simp [create_mapping_observer_instr, mkWrappedObserver]
  · induction vs generalizing t with
    | nil => rfl
    | cons w ws ih =>
        rw [List.foldl_cons, List.foldl_cons]
        have h : (create_mapping_observer_instr (mkWrappedObserver n er c) m).next
            w (false, t) = (false, (m w t).1) := by
          simp [create_mapping_observer_instr, mkWrappedObserver]
        rw [h]
        exact ih (m w t).1

end RxSpec
